import Mathlib

/-!
Verification of the udp-webrtc-player server core (src/server/server.js).

The shallow embedding below translates the stateful JavaScript handlers into
pure Lean functions over explicit state.  Byte strings are `List Nat`,
JavaScript `Map`s are association lists with first-match semantics,
JavaScript `Set`s are duplicate-free insertion-ordered lists, timestamps
(`Date.now()`) are `Nat` parameters threaded into each handler, and the set of
live socket connections (`io.sockets.sockets`) is a `List String` of socket
ids.  Handlers return the new state together with the list of messages they
emit.
-/

namespace UdpWebrtcPlayer

/-- Packet stored in `videoBuffer` by the UDP message handler
(server.js lines 171-176): an id derived from the payload, the raw payload
bytes, the arrival timestamp and the payload size. -/
structure Packet where
  id : Nat
  data : List Nat
  timestamp : Nat
  size : Nat
deriving DecidableEq

/-- Total of `packet.data.length` over the buffer, exactly the reduce used by
the eviction loop condition (server.js line 183). -/
def totalDataLen (buf : List Packet) : Nat :=
  buf.foldl (fun total packet => total + packet.data.length) 0

/-- Total of `packet.size` over the buffer (the quantity named by the spec's
buffer-bound property). -/
def totalSizes (buf : List Packet) : Nat :=
  buf.foldl (fun total packet => total + packet.size) 0

/-- Eviction loop of the UDP message handler (server.js lines 182-185):
`while (videoBuffer.length > 0 && sum(data.length) > MAX_BUFFER_SIZE)
videoBuffer.shift()`. -/
def evictOldest (ceiling : Nat) : List Packet → List Packet
  | [] => []
  | p :: ps =>
    if totalDataLen (p :: ps) > ceiling then evictOldest ceiling ps
    else p :: ps

/-- Mutable module state touched by the UDP message handler: the packet
buffer and the rolling data-rate counters (server.js lines 152-158). -/
structure UdpState where
  videoBuffer : List Packet
  bytesReceivedLastSecond : Nat
  lastDataRateUpdate : Nat
  currentDataRate : Nat
deriving DecidableEq

/-- Initial UDP state: empty buffer, counters zeroed,
`lastDataRateUpdate = Date.now()` at process start (parameter `t0`). -/
def initialUdpState (t0 : Nat) : UdpState :=
  { videoBuffer := [], bytesReceivedLastSecond := 0,
    lastDataRateUpdate := t0, currentDataRate := 0 }

/-- Broadcast payload of the `udp-data` event (server.js lines 196-201). -/
structure UdpBroadcast where
  timestamp : Nat
  size : Nat
  sender : String
  dataRate : Nat
deriving DecidableEq

/-- UDP message handler (server.js lines 166-202).  `hash` stands for the
md5-prefix content hash used for the packet id; it is an arbitrary function
parameter because the buffering logic never inspects it.  The handler pushes
the wrapped packet, updates the byte counter, runs the eviction loop,
refreshes the once-per-second data rate and broadcasts a `udp-data` notice. -/
def udpMessage (hash : List Nat → Nat) (ceiling : Nat) (now : Nat)
    (sender : String) (st : UdpState) (msg : List Nat) :
    UdpState × UdpBroadcast :=
  let packet : Packet :=
    { id := hash msg, data := msg, timestamp := now, size := msg.length }
  let buf := evictOldest ceiling (st.videoBuffer ++ [packet])
  let bytes := st.bytesReceivedLastSecond + msg.length
  if now - st.lastDataRateUpdate ≥ 1000 then
    ({ videoBuffer := buf, bytesReceivedLastSecond := 0,
       lastDataRateUpdate := now, currentDataRate := bytes },
     { timestamp := now, size := msg.length, sender := sender,
       dataRate := bytes })
  else
    ({ videoBuffer := buf, bytesReceivedLastSecond := bytes,
       lastDataRateUpdate := st.lastDataRateUpdate,
       currentDataRate := st.currentDataRate },
     { timestamp := now, size := msg.length, sender := sender,
       dataRate := st.currentDataRate })

/-- Fold of the UDP message handler over a list of `(now, sender, msg)`
ingestion events, starting from the initial state. -/
def udpRun (hash : List Nat → Nat) (ceiling t0 : Nat)
    (events : List (Nat × String × List Nat)) : UdpState :=
  events.foldl
    (fun st e => (udpMessage hash ceiling e.1 e.2.1 st e.2.2).1)
    (initialUdpState t0)

/-- JavaScript falsy-default `v || d` for an optional numeric field: an
absent field or the number 0 both yield the default. -/
def jsOrInt (v : Option Int) (d : Int) : Int :=
  match v with
  | none => d
  | some x => if x = 0 then d else x

/-- Index normalization of `Array.prototype.slice`: a negative index counts
from the end (clamped below at 0), a non-negative one is clamped above at the
length. -/
def jsSliceIndex (len : Nat) (i : Int) : Nat :=
  if i < 0 then ((len : Int) + i).toNat else min i.toNat len

/-- JavaScript `Array.prototype.slice(start, stop)` on a list. -/
def jsSlice {α : Type _} (l : List α) (start stop : Int) : List α :=
  (l.take (jsSliceIndex l.length stop)).drop (jsSliceIndex l.length start)

/-- Code of position `i` of the standard base64 alphabet. -/
def b64Code (i : Nat) : Nat :=
  if i < 26 then 65 + i
  else if i < 52 then 97 + (i - 26)
  else if i < 62 then 48 + (i - 52)
  else if i = 62 then 43
  else 47

/-- Standard base64 encoding of a byte list (the `toString('base64')` applied
to each packet payload at server.js line 309), producing ASCII codes. -/
def base64Encode : List Nat → List Nat
  | b1 :: b2 :: b3 :: rest =>
    let n := (b1 % 256) * 65536 + (b2 % 256) * 256 + b3 % 256
    b64Code (n / 262144 % 64) :: b64Code (n / 4096 % 64) ::
      b64Code (n / 64 % 64) :: b64Code (n % 64) :: base64Encode rest
  | [b1, b2] =>
    let n := (b1 % 256) * 1024 + (b2 % 256) * 4
    [b64Code (n / 4096 % 64), b64Code (n / 64 % 64), b64Code (n % 64), 61]
  | [b1] =>
    let n := (b1 % 256) * 16
    [b64Code (n / 64 % 64), b64Code (n % 64), 61, 61]
  | [] => []

/-- Encoded chunk sent inside a `video-data` reply
(server.js lines 306-313). -/
structure EncodedChunk where
  id : Nat
  data : List Nat
  timestamp : Nat
  size : Nat
deriving DecidableEq

/-- Per-packet encoding step of the `request-video-data` handler
(server.js lines 306-313). -/
def encodePacket (p : Packet) : EncodedChunk :=
  { id := p.id, data := base64Encode p.data, timestamp := p.timestamp,
    size := p.size }

/-- Payload of the `video-data` reply (server.js lines 288-293 and 315-321).
The empty-buffer branch carries no dataRate field, hence the `Option`. -/
structure VideoDataReply where
  chunks : List EncodedChunk
  nextIndex : Int
  hasMore : Bool
  timestamp : Nat
  dataRate : Option Nat
deriving DecidableEq

/-- Handler of the `request-video-data` event (server.js lines 275-322),
after its admission gate: defaults `startIndex` to 0 and `chunkSize` to 10
(JavaScript falsy semantics), caps the chunk size at 20, answers an empty
buffer with an empty no-more-data reply, otherwise bounds the start index
above by `length - 1`, slices the buffer and reports the follow-up index and
whether more data remains. -/
def requestVideoData (now dataRate : Nat) (buf : List Packet)
    (startIndexOpt chunkSizeOpt : Option Int) : VideoDataReply :=
  let startIndex := jsOrInt startIndexOpt 0
  let chunkSize := min (jsOrInt chunkSizeOpt 10) 20
  if buf.length = 0 then
    { chunks := [], nextIndex := 0, hasMore := false, timestamp := now,
      dataRate := none }
  else
    let validStartIndex : Int := min startIndex ((buf.length : Int) - 1)
    let dataToSend :=
      jsSlice buf validStartIndex
        (min (validStartIndex + chunkSize) (buf.length : Int))
    { chunks := dataToSend.map encodePacket,
      nextIndex := validStartIndex + dataToSend.length,
      hasMore := decide
        (validStartIndex + (dataToSend.length : Int) < (buf.length : Int)),
      timestamp := now,
      dataRate := some dataRate }

/-- Rate-window entry stored per subject: `x7b timestamp, count x7d`
(server.js lines 80 and 223-226). -/
structure RateWindow where
  timestamp : Nat
  count : Nat
deriving DecidableEq

/-- Shared fixed-window shape of both admission gates (the HTTP middleware at
server.js lines 76-106 and `rateLimitSocketEvent` at lines 221-248): a fresh
subject starts a window with count 1 and is allowed; once more than
`intervalLength` has elapsed since the stored window start the window resets
to count 1 and the event is allowed; at `count ≥ limit` inside the window the
event is denied and the state is unchanged; otherwise the count is
incremented and the event is allowed.  The first component is `true` exactly
when the event is denied (the JavaScript helper returns `true` when rate
limited). -/
def fixedWindowStep (intervalLength limit now : Nat) :
    Option RateWindow → Bool × RateWindow
  | none => (false, { timestamp := now, count := 1 })
  | some w =>
    if now - w.timestamp > intervalLength then
      (false, { timestamp := now, count := 1 })
    else if w.count ≥ limit then (true, w)
    else (false, { timestamp := w.timestamp, count := w.count + 1 })

/-- Socket-event gate `rateLimitSocketEvent(socket, limit)`
(server.js lines 221-248): the fixed window with the hard-coded one-second
interval. -/
def rateLimitSocketEvent (limit now : Nat) (st : Option RateWindow) :
    Bool × RateWindow :=
  fixedWindowStep 1000 limit now st

/-- Run of the fixed-window gate over the timestamps of a sequence of events
from one subject, returning the per-event denial decisions and the final
window state. -/
def gateRun (intervalLength limit : Nat) :
    Option RateWindow → List Nat → List Bool × Option RateWindow
  | st, [] => ([], st)
  | st, t :: ts =>
    let r := fixedWindowStep intervalLength limit t st
    let rest := gateRun intervalLength limit (some r.2) ts
    (r.1 :: rest.1, rest.2)

/-- Role recorded in `socketRoles` (server.js line 215). -/
inductive SocketRole where
  | broadcaster (streamId : String)
  | viewer (streamId : String)
deriving DecidableEq

/-- Lookup in a JavaScript `Map` modelled as an association list. -/
def mapFind {β : Type _} (k : String) : List (String × β) → Option β
  | [] => none
  | p :: rest => if p.1 = k then some p.2 else mapFind k rest

/-- JavaScript `Map.set`: replace the binding of an existing key in place,
otherwise append a new binding. -/
def mapSet {β : Type _} (k : String) (v : β) :
    List (String × β) → List (String × β)
  | [] => [(k, v)]
  | p :: rest => if p.1 = k then (k, v) :: rest else p :: mapSet k v rest

/-- JavaScript `Map.delete`: remove the binding of a key (keys are unique in
a `Map`, so removing every occurrence is the same operation). -/
def mapErase {β : Type _} (k : String) :
    List (String × β) → List (String × β)
  | [] => []
  | p :: rest => if p.1 = k then mapErase k rest else p :: mapErase k rest

/-- JavaScript `Set.add`: append the element if absent. -/
def setAdd (x : String) (s : List String) : List String :=
  if x ∈ s then s else s ++ [x]

/-- JavaScript `Set.delete`: remove the element. -/
def setDelete (x : String) : List String → List String
  | [] => []
  | y :: ys => if y = x then setDelete x ys else y :: setDelete x ys

/-- Server-side registry and admission state shared by the socket handlers:
`broadcasters` (streamId to source socket id), `viewers` (streamId to follower
set), `socketRoles` (socket id to role) and `socketRateLimits`
(server.js lines 213-218). -/
structure ServerState where
  broadcasters : List (String × String)
  viewers : List (String × List String)
  socketRoles : List (String × SocketRole)
  socketRateLimits : List (String × RateWindow)
deriving DecidableEq

/-- Empty registry at process start. -/
def emptyServerState : ServerState :=
  { broadcasters := [], viewers := [], socketRoles := [],
    socketRateLimits := [] }

/-- Messages the registry handlers emit.  A `streamAvailable` is a broadcast
to every other connection; the targeted constructors carry the recipient
socket id first.  The optional reason distinguishes the disconnect-path
notifications from the explicit-unregister ones. -/
inductive Emit where
  | streamAvailable (streamId : String) (now : Nat)
  | streamEnded (target streamId : String) (now : Nat) (reason : Option String)
  | streamUnavailable (target streamId : String) (now : Nat)
  | viewerConnected (target viewerId : String) (now : Nat)
  | viewerDisconnected (target viewerId : String) (now : Nat)
      (reason : Option String)
deriving DecidableEq

/-- Handler of `register-broadcaster` (server.js lines 340-365), after its
admission gate: unconditionally stores the sender as the source of the
stream, creates the follower set only if absent, records the sender's role
and broadcasts `stream-available`. -/
def registerBroadcaster (now : Nat) (sid streamId : String)
    (st : ServerState) : ServerState × List Emit :=
  ({ broadcasters := mapSet streamId sid st.broadcasters,
     viewers :=
       if (mapFind streamId st.viewers).isSome then st.viewers
       else mapSet streamId [] st.viewers,
     socketRoles := mapSet sid (SocketRole.broadcaster streamId) st.socketRoles,
     socketRateLimits := st.socketRateLimits },
   [Emit.streamAvailable streamId now])

/-- Handler of `unregister-broadcaster` (server.js lines 368-401), after its
admission gate: only if the sender is the stored source, the stream entry is
removed, every live follower is told the stream ended and the follower set is
deleted; the sender's role entry is deleted unconditionally (outside the
ownership guard in the source). -/
def unregisterBroadcaster (conns : List String) (now : Nat)
    (sid streamId : String) (st : ServerState) : ServerState × List Emit :=
  if mapFind streamId st.broadcasters = some sid then
    match mapFind streamId st.viewers with
    | some vs =>
      ({ broadcasters := mapErase streamId st.broadcasters,
         viewers := mapErase streamId st.viewers,
         socketRoles := mapErase sid st.socketRoles,
         socketRateLimits := st.socketRateLimits },
       (vs.filter (fun v => conns.contains v)).map
         (fun v => Emit.streamEnded v streamId now none))
    | none =>
      ({ broadcasters := mapErase streamId st.broadcasters,
         viewers := st.viewers,
         socketRoles := mapErase sid st.socketRoles,
         socketRateLimits := st.socketRateLimits }, [])
  else
    ({ broadcasters := st.broadcasters, viewers := st.viewers,
       socketRoles := mapErase sid st.socketRoles,
       socketRateLimits := st.socketRateLimits }, [])

/-- Handler of `register-viewer` (server.js lines 404-440), after its
admission gate: with no registered source the sender gets
`stream-unavailable` and nothing changes; otherwise the sender joins the
follower set (created if absent), its role is recorded and a live source is
notified. -/
def registerViewer (conns : List String) (now : Nat) (sid streamId : String)
    (st : ServerState) : ServerState × List Emit :=
  match mapFind streamId st.broadcasters with
  | none => (st, [Emit.streamUnavailable sid streamId now])
  | some broadcasterId =>
    let vs := match mapFind streamId st.viewers with
      | some vs => vs
      | none => []
    ({ broadcasters := st.broadcasters,
       viewers := mapSet streamId (setAdd sid vs) st.viewers,
       socketRoles := mapSet sid (SocketRole.viewer streamId) st.socketRoles,
       socketRateLimits := st.socketRateLimits },
     if conns.contains broadcasterId then
       [Emit.viewerConnected broadcasterId sid now]
     else [])

/-- Handler of `unregister-viewer` (server.js lines 443-470), after its
admission gate: if the stream has a follower set, the sender is removed from
it and a live source is notified (even when the sender was not a member); the
sender's role entry is deleted unconditionally. -/
def unregisterViewer (conns : List String) (now : Nat)
    (sid streamId : String) (st : ServerState) : ServerState × List Emit :=
  match mapFind streamId st.viewers with
  | some vs =>
    ({ broadcasters := st.broadcasters,
       viewers := mapSet streamId (setDelete sid vs) st.viewers,
       socketRoles := mapErase sid st.socketRoles,
       socketRateLimits := st.socketRateLimits },
     match mapFind streamId st.broadcasters with
     | some broadcasterId =>
       if conns.contains broadcasterId then
         [Emit.viewerDisconnected broadcasterId sid now none]
       else []
     | none => [])
  | none =>
    ({ broadcasters := st.broadcasters, viewers := st.viewers,
       socketRoles := mapErase sid st.socketRoles,
       socketRateLimits := st.socketRateLimits }, [])

/-- Disconnect cleanup (server.js lines 508-565): the rate-limit entry is
dropped first; then, by recorded role, the broadcaster path mirrors
`unregister-broadcaster` (with a reason on the notifications) and the viewer
path mirrors `unregister-viewer`; finally the role entry is deleted.  With no
recorded role only the rate-limit entry is dropped. -/
def disconnectCleanup (conns : List String) (now : Nat) (sid : String)
    (st : ServerState) : ServerState × List Emit :=
  let rl := mapErase sid st.socketRateLimits
  match mapFind sid st.socketRoles with
  | none =>
    ({ broadcasters := st.broadcasters, viewers := st.viewers,
       socketRoles := st.socketRoles, socketRateLimits := rl }, [])
  | some (SocketRole.broadcaster streamId) =>
    if mapFind streamId st.broadcasters = some sid then
      match mapFind streamId st.viewers with
      | some vs =>
        ({ broadcasters := mapErase streamId st.broadcasters,
           viewers := mapErase streamId st.viewers,
           socketRoles := mapErase sid st.socketRoles,
           socketRateLimits := rl },
         (vs.filter (fun v => conns.contains v)).map
           (fun v =>
             Emit.streamEnded v streamId now (some "broadcaster-disconnected")))
      | none =>
        ({ broadcasters := mapErase streamId st.broadcasters,
           viewers := st.viewers,
           socketRoles := mapErase sid st.socketRoles,
           socketRateLimits := rl }, [])
    else
      ({ broadcasters := st.broadcasters, viewers := st.viewers,
         socketRoles := mapErase sid st.socketRoles,
         socketRateLimits := rl }, [])
  | some (SocketRole.viewer streamId) =>
    match mapFind streamId st.viewers with
    | some vs =>
      ({ broadcasters := st.broadcasters,
         viewers := mapSet streamId (setDelete sid vs) st.viewers,
         socketRoles := mapErase sid st.socketRoles,
         socketRateLimits := rl },
       match mapFind streamId st.broadcasters with
       | some broadcasterId =>
         if conns.contains broadcasterId then
           [Emit.viewerDisconnected broadcasterId sid now
             (some "viewer-disconnected")]
         else []
       | none => [])
    | none =>
      ({ broadcasters := st.broadcasters, viewers := st.viewers,
         socketRoles := mapErase sid st.socketRoles,
         socketRateLimits := rl }, [])

/-- Opaque directed signaling payload: the target socket id field
(`viewerId` in a `broadcaster-signal`, `broadcasterId` in a `viewer-signal`)
plus the never-inspected negotiation blob. -/
structure SignalData where
  targetId : String
  body : List Nat
deriving DecidableEq

/-- Message delivered by the directed relay: the original payload augmented
with the sender's socket id and a timestamp. -/
structure DeliveredSignal where
  body : List Nat
  senderId : String
  timestamp : Nat
deriving DecidableEq

/-- Handler of `broadcaster-signal` (server.js lines 473-488), after its
admission gate: if the target viewer connection is live, deliver the payload
augmented with the sender id and a timestamp; otherwise do nothing.  The
handler reads and writes no registry state, so the state passes through
unchanged. -/
def broadcasterSignal (conns : List String) (now : Nat) (sid : String)
    (d : SignalData) (st : ServerState) :
    ServerState × List (String × DeliveredSignal) :=
  if conns.contains d.targetId then
    (st, [(d.targetId,
      { body := d.body, senderId := sid, timestamp := now })])
  else (st, [])

/-- Handler of `viewer-signal` (server.js lines 490-505), after its admission
gate: symmetric to `broadcasterSignal`, targeting the broadcaster id carried
in the payload. -/
def viewerSignal (conns : List String) (now : Nat) (sid : String)
    (d : SignalData) (st : ServerState) :
    ServerState × List (String × DeliveredSignal) :=
  if conns.contains d.targetId then
    (st, [(d.targetId,
      { body := d.body, senderId := sid, timestamp := now })])
  else (st, [])

/-- Fold of `registerBroadcaster` over a list of `(streamId, socket id)`
registration calls. -/
def applyRegisterSources (now : Nat) (st : ServerState)
    (calls : List (String × String)) : ServerState :=
  calls.foldl (fun s c => (registerBroadcaster now c.2 c.1 s).1) st

/-! Helper lemmas about the map and set primitives. -/

theorem mapFind_mapSet_self {β : Type _} (k : String) (v : β)
    (l : List (String × β)) : mapFind k (mapSet k v l) = some v := by
  induction l with
  | nil => simp [mapSet, mapFind]
  | cons p rest ih =>
    by_cases h : p.1 = k
    · simp [mapSet, mapFind, h]
    · simp [mapSet, mapFind, h, ih]

theorem mapFind_mapSet_ne {β : Type _} (k k' : String) (v : β)
    (l : List (String × β)) (h : k ≠ k') :
    mapFind k (mapSet k' v l) = mapFind k l := by
  have h' : ¬ k' = k := fun hh => h hh.symm
  induction l with
  | nil => simp [mapSet, mapFind, h']
  | cons p rest ih =>
    by_cases hp : p.1 = k'
    · simp [mapSet, mapFind, hp, h']
    · by_cases hk : p.1 = k <;> simp [mapSet, mapFind, hp, hk, ih, h]

theorem mapSet_find_self {β : Type _} (k : String) (v : β)
    (l : List (String × β)) (h : mapFind k l = some v) :
    mapSet k v l = l := by
  induction l with
  | nil => simp [mapFind] at h
  | cons p rest ih =>
    obtain ⟨a, b⟩ := p
    by_cases hp : a = k
    · subst hp
      simp only [mapFind, if_pos] at h
      rw [Option.some.injEq] at h
      subst h
      simp [mapSet]
    · simp only [mapFind, if_neg hp] at h
      simp [mapSet, hp, ih h]

theorem mapFind_mapErase_self {β : Type _} (k : String)
    (l : List (String × β)) : mapFind k (mapErase k l) = none := by
  induction l with
  | nil => simp [mapErase, mapFind]
  | cons p rest ih =>
    by_cases hp : p.1 = k <;> simp [mapErase, mapFind, hp, ih]

theorem mapErase_find_none {β : Type _} (k : String)
    (l : List (String × β)) (h : mapFind k l = none) :
    mapErase k l = l := by
  induction l with
  | nil => simp [mapErase]
  | cons p rest ih =>
    by_cases hp : p.1 = k
    · simp [mapFind, hp] at h
    · simp only [mapFind, if_neg hp] at h
      simp [mapErase, hp, ih h]

theorem mapErase_idem {β : Type _} (k : String) (l : List (String × β)) :
    mapErase k (mapErase k l) = mapErase k l :=
  mapErase_find_none k (mapErase k l) (mapFind_mapErase_self k l)

theorem setDelete_not_mem (x : String) (s : List String) (h : x ∉ s) :
    setDelete x s = s := by
  induction s with
  | nil => simp [setDelete]
  | cons y ys ih =>
    simp only [List.mem_cons, not_or] at h
    simp [setDelete, Ne.symm h.1, ih h.2]

theorem registerBroadcaster_fst_broadcasters (now : Nat)
    (sid streamId : String) (st : ServerState) :
    (registerBroadcaster now sid streamId st).1.broadcasters =
      mapSet streamId sid st.broadcasters := rfl

/-- C2.  For every streamId, after any sequence of registerSource calls
(possibly from different connections), exactly one sourceConnectionId is
stored for that streamId, namely the one from the most recent call: a later
registration unconditionally overwrites an earlier one and is never rejected.
Formally: after folding `register-broadcaster` over any call sequence, the
stored source of `s` is the socket id of the last call that names `s`, and
the initial binding only when no call names `s`. -/
theorem registerSource_last_writer_wins (now : Nat) (st : ServerState)
    (calls : List (String × String)) (s : String) :
    mapFind s (applyRegisterSources now st calls).broadcasters =
      match (calls.filter (fun c => decide (c.1 = s))).getLast? with
      | some c => some c.2
      | none => mapFind s st.broadcasters := by
  induction calls generalizing st with
  | nil => simp [applyRegisterSources, List.filter]
  | cons c rest ih =>
    have hstep : applyRegisterSources now st (c :: rest) =
        applyRegisterSources now (registerBroadcaster now c.2 c.1 st).1 rest := by
      simp [applyRegisterSources]
    rw [hstep, ih]
    by_cases hc : c.1 = s
    · subst hc
      rw [registerBroadcaster_fst_broadcasters, mapFind_mapSet_self]
      have hfilter : (c :: rest).filter (fun d => decide (d.1 = c.1)) =
          c :: rest.filter (fun d => decide (d.1 = c.1)) := by
        simp [List.filter]
      rw [hfilter]
      cases hfr : rest.filter (fun d => decide (d.1 = c.1)) with
      | nil => simp
      | cons hd tl =>
        rw [List.getLast?_cons_cons]
        cases hgl : (hd :: tl).getLast? with
        | none => simp at hgl
        | some g => rfl
    · rw [registerBroadcaster_fst_broadcasters,
        mapFind_mapSet_ne s c.1 c.2 st.broadcasters (fun hh => hc hh.symm)]
      have hfilter : (c :: rest).filter (fun d => decide (d.1 = s)) =
          rest.filter (fun d => decide (d.1 = s)) := by
        simp [List.filter, hc]
      rw [hfilter]

/-- C10.  For every streamId that already has a follower set, a subsequent
registerSource call for that streamId (including one from a different
connection that overwrites the previous source) leaves the existing follower
set unchanged, and the only message it emits is the stream-available
broadcast — no follower is added, removed, or notified of removal. -/
theorem registerSource_preserves_followers (now : Nat) (sid streamId : String)
    (st : ServerState) (vs : List String)
    (h : mapFind streamId st.viewers = some vs) :
    (registerBroadcaster now sid streamId st).1.viewers = st.viewers
    ∧ (registerBroadcaster now sid streamId st).2 =
        [Emit.streamAvailable streamId now] := by
  constructor
  · show (if (mapFind streamId st.viewers).isSome then st.viewers
      else mapSet streamId [] st.viewers) = st.viewers
    rw [h]
    rfl
  · rfl

/-- Concrete registry for the C10 witness: stream s1 owned by c1, with the
follower set holding v1. -/
def c10State : ServerState :=
  { broadcasters := [("s1", "c1")], viewers := [("s1", ["v1"])],
    socketRoles := [], socketRateLimits := [] }

/-- Witness for C10 at a concrete registry: c2 overwrites c1 as the source of
s1 and the follower set survives untouched. -/
theorem registerSource_preserves_followers_witness :
    mapFind "s1" c10State.viewers = some ["v1"]
    ∧ ((registerBroadcaster 7 "c2" "s1" c10State).1.viewers =
        c10State.viewers
      ∧ (registerBroadcaster 7 "c2" "s1" c10State).2 =
          [Emit.streamAvailable "s1" 7]) :=
  ⟨by decide,
   registerSource_preserves_followers 7 "c2" "s1" c10State ["v1"] (by decide)⟩

/-- Counterexample to C6 as stated: after c1 registers as source of s1 and c2
overwrites it, a stale unregister from c1 leaves the source map alone but
still deletes c1's connection-role entry, so the registry state is not
entirely unchanged. -/
theorem unregisterSource_nonowner_counterexample :
    mapFind "s1" (applyRegisterSources 0 emptyServerState
      [("s1", "c1"), ("s1", "c2")]).broadcasters = some "c2"
    ∧ (unregisterBroadcaster ["c1", "c2"] 0 "c1" "s1"
        (applyRegisterSources 0 emptyServerState
          [("s1", "c1"), ("s1", "c2")])).1.socketRoles ≠
      (applyRegisterSources 0 emptyServerState
        [("s1", "c1"), ("s1", "c2")]).socketRoles := by
  decide

/-- C6 as amended: an unregisterSource call from a connection that is not the
currently stored source of the stream leaves the source map and the follower
sets unchanged and emits no notification, but it still unconditionally
deletes the caller's connection-role entry (the role deletion sits outside
the ownership guard in the handler). -/
theorem unregisterSource_nonowner_effect (conns : List String) (now : Nat)
    (sid streamId : String) (st : ServerState)
    (h : ¬ mapFind streamId st.broadcasters = some sid) :
    (unregisterBroadcaster conns now sid streamId st).1.broadcasters =
        st.broadcasters
    ∧ (unregisterBroadcaster conns now sid streamId st).1.viewers = st.viewers
    ∧ (unregisterBroadcaster conns now sid streamId st).1.socketRoles =
        mapErase sid st.socketRoles
    ∧ (unregisterBroadcaster conns now sid streamId st).1.socketRateLimits =
        st.socketRateLimits
    ∧ (unregisterBroadcaster conns now sid streamId st).2 = [] := by
  unfold unregisterBroadcaster
  rw [if_neg h]
  exact ⟨rfl, rfl, rfl, rfl, rfl⟩

/-- Witness for the amended C6 at the concrete two-registration registry. -/
theorem unregisterSource_nonowner_effect_witness :
    (¬ mapFind "s1" (applyRegisterSources 0 emptyServerState
        [("s1", "c1"), ("s1", "c2")]).broadcasters = some "c1")
    ∧ (unregisterBroadcaster ["c1", "c2"] 0 "c1" "s1"
        (applyRegisterSources 0 emptyServerState
          [("s1", "c1"), ("s1", "c2")])).1.viewers =
      (applyRegisterSources 0 emptyServerState
        [("s1", "c1"), ("s1", "c2")]).viewers :=
  ⟨by decide,
   (unregisterSource_nonowner_effect ["c1", "c2"] 0 "c1" "s1"
     (applyRegisterSources 0 emptyServerState [("s1", "c1"), ("s1", "c2")])
     (by decide)).2.1⟩

/-- Counterexample to C7 as stated: c1 registers as the source of s1 (so it
was never a follower of s1 — the follower set of s1 is empty), yet
unregisterFollower from c1 deletes c1's connection-role entry, changing the
registry state. -/
theorem unregisterFollower_nonmember_counterexample :
    mapFind "s1"
      ((registerBroadcaster 0 "c1" "s1" emptyServerState).1.viewers) = some []
    ∧ (registerBroadcaster 0 "c1" "s1" emptyServerState).1.socketRoles =
        [("c1", SocketRole.broadcaster "s1")]
    ∧ (unregisterViewer ["c1"] 0 "c1" "s1"
        (registerBroadcaster 0 "c1" "s1" emptyServerState).1).1.socketRoles ≠
      (registerBroadcaster 0 "c1" "s1" emptyServerState).1.socketRoles := by
  decide

/-- C7 as amended: unregisterFollower for a connection that is not in the
follower set of the stream raises no error and leaves the source map, every
follower set and the rate-limit table unchanged, but it still
unconditionally deletes the caller's connection-role entry. -/
theorem unregisterFollower_nonmember_effect (conns : List String) (now : Nat)
    (sid streamId : String) (st : ServerState)
    (h : ∀ vs, mapFind streamId st.viewers = some vs → sid ∉ vs) :
    (unregisterViewer conns now sid streamId st).1.broadcasters =
        st.broadcasters
    ∧ (unregisterViewer conns now sid streamId st).1.viewers = st.viewers
    ∧ (unregisterViewer conns now sid streamId st).1.socketRoles =
        mapErase sid st.socketRoles
    ∧ (unregisterViewer conns now sid streamId st).1.socketRateLimits =
        st.socketRateLimits := by
  unfold unregisterViewer
  cases hv : mapFind streamId st.viewers with
  | none => exact ⟨rfl, rfl, rfl, rfl⟩
  | some vs =>
    have hvs : setDelete sid vs = vs := setDelete_not_mem sid vs (h vs hv)
    refine ⟨rfl, ?_, rfl, rfl⟩
    show mapSet streamId (setDelete sid vs) st.viewers = st.viewers
    rw [hvs]
    exact mapSet_find_self streamId vs st.viewers hv

/-- Witness for the amended C7: c1 is the source of s1, not a follower, and
the follower sets survive its unregister-viewer call. -/
theorem unregisterFollower_nonmember_effect_witness :
    (∀ vs, mapFind "s1"
        ((registerBroadcaster 0 "c1" "s1" emptyServerState).1.viewers) =
          some vs → "c1" ∉ vs)
    ∧ (unregisterViewer ["c1"] 0 "c1" "s1"
        (registerBroadcaster 0 "c1" "s1" emptyServerState).1).1.viewers =
      (registerBroadcaster 0 "c1" "s1" emptyServerState).1.viewers :=
  ⟨by decide,
   (unregisterFollower_nonmember_effect ["c1"] 0 "c1" "s1"
     (registerBroadcaster 0 "c1" "s1" emptyServerState).1 (by decide)).2.1⟩

theorem disconnectCleanup_roles_find (conns : List String) (now : Nat)
    (sid : String) (st : ServerState) :
    mapFind sid (disconnectCleanup conns now sid st).1.socketRoles = none := by
  unfold disconnectCleanup
  cases hr : mapFind sid st.socketRoles with
  | none => simpa using hr
  | some role =>
    cases role with
    | broadcaster streamId =>
      by_cases hb : mapFind streamId st.broadcasters = some sid
      · cases hv : mapFind streamId st.viewers <;>
          simp [hb, hv, mapFind_mapErase_self]
      · simp [hb, mapFind_mapErase_self]
    | viewer streamId =>
      cases hv : mapFind streamId st.viewers <;>
        simp [hv, mapFind_mapErase_self]

theorem disconnectCleanup_rateLimits (conns : List String) (now : Nat)
    (sid : String) (st : ServerState) :
    (disconnectCleanup conns now sid st).1.socketRateLimits =
      mapErase sid st.socketRateLimits := by
  unfold disconnectCleanup
  cases hr : mapFind sid st.socketRoles with
  | none => rfl
  | some role =>
    cases role with
    | broadcaster streamId =>
      by_cases hb : mapFind streamId st.broadcasters = some sid
      · cases hv : mapFind streamId st.viewers <;> simp [hb, hv]
      · simp [hb]
    | viewer streamId =>
      cases hv : mapFind streamId st.viewers <;> simp [hv]

theorem disconnectCleanup_of_role_none (conns : List String) (now : Nat)
    (sid : String) (st : ServerState)
    (h : mapFind sid st.socketRoles = none) :
    (disconnectCleanup conns now sid st).1 =
      { broadcasters := st.broadcasters, viewers := st.viewers,
        socketRoles := st.socketRoles,
        socketRateLimits := mapErase sid st.socketRateLimits } := by
  unfold disconnectCleanup
  rw [h]

/-- C5.  Running the disconnect cleanup twice for the same connection has the
same effect on the whole server state (session registry, connection-role
table and rate-limit table) as running it once, whatever the live-connection
set and clock read at the second call. -/
theorem disconnect_cleanup_idempotent (conns conns2 : List String)
    (now now2 : Nat) (sid : String) (st : ServerState) :
    (disconnectCleanup conns2 now2 sid
      (disconnectCleanup conns now sid st).1).1 =
      (disconnectCleanup conns now sid st).1 := by
  have h1 := disconnectCleanup_roles_find conns now sid st
  have h2 := disconnectCleanup_rateLimits conns now sid st
  rw [disconnectCleanup_of_role_none conns2 now2 sid _ h1, h2, mapErase_idem,
    ← h2]

/-- C8.  A directed signaling message whose target connection id does not
name a live connection is silently dropped by both relay handlers: the state
is unchanged and nothing is delivered, so the sender gets no notice and no
error is raised; when the target is live, the payload is delivered to
exactly that target, augmented with the sender's connection id and a
timestamp. -/
theorem signal_relay_ghost_target (conns : List String) (now : Nat)
    (sid : String) (d : SignalData) (st : ServerState) :
    (d.targetId ∉ conns →
      broadcasterSignal conns now sid d st = (st, [])
      ∧ viewerSignal conns now sid d st = (st, []))
    ∧ (d.targetId ∈ conns →
      broadcasterSignal conns now sid d st =
        (st, [(d.targetId,
          { body := d.body, senderId := sid, timestamp := now })])
      ∧ viewerSignal conns now sid d st =
        (st, [(d.targetId,
          { body := d.body, senderId := sid, timestamp := now })])) := by
  constructor
  · intro h
    constructor <;> simp [broadcasterSignal, viewerSignal, h]
  · intro h
    constructor <;> simp [broadcasterSignal, viewerSignal, h]

/-- Witness for C8: the target ghost is not among the live connections, so
the broadcaster-signal relay drops the message without touching the state. -/
theorem signal_relay_ghost_target_witness :
    ("ghost" : String) ∉ (["alice"] : List String)
    ∧ broadcasterSignal ["alice"] 5 "alice"
        { targetId := "ghost", body := [1, 2] } emptyServerState =
      (emptyServerState, []) :=
  ⟨by decide,
   ((signal_relay_ghost_target ["alice"] 5 "alice"
      { targetId := "ghost", body := [1, 2] } emptyServerState).1
     (by decide)).1⟩

theorem gateRun_fill (T L t0 : Nat) (ts : List Nat) (c : Nat)
    (hin : ∀ t ∈ ts, t - t0 ≤ T) (hle : c + ts.length ≤ L) :
    gateRun T L (some { timestamp := t0, count := c }) ts =
      (List.replicate ts.length false,
       some { timestamp := t0, count := c + ts.length }) := by
  induction ts generalizing c with
  | nil => simp [gateRun]
  | cons t ts ih =>
    have ht : t - t0 ≤ T := hin t (List.mem_cons_self t ts)
    have hlt : c < L := by
      simp only [List.length_cons] at hle
      omega
    have hstep : fixedWindowStep T L t (some { timestamp := t0, count := c }) =
        (false, { timestamp := t0, count := c + 1 }) := by
      simp only [fixedWindowStep]
      rw [if_neg (show ¬ (t - t0 > T) by omega), if_neg (show ¬ (c ≥ L) by omega)]
    simp only [gateRun, hstep]
    rw [ih (c + 1) (fun u hu => hin u (List.mem_cons_of_mem t hu))
      (by simp only [List.length_cons] at hle; omega)]
    simp only [List.replicate_succ, List.length_cons]
    have harith : c + 1 + ts.length = c + (ts.length + 1) := by omega
    rw [harith]

/-- C4.  For every fixed-window gate with limit L at least 1 and interval
length T, starting from no window state: L consecutive events within T of
the first event's time are all allowed, a further event still within the
window is denied, and an event more than T after the window start is allowed
again with the state reset to count 1 at the new time. -/
theorem fixed_window_limit_and_reset (T L : Nat) (hL : 1 ≤ L) (t0 : Nat)
    (rest : List Nat) (hlen : rest.length = L - 1)
    (hin : ∀ t ∈ rest, t - t0 ≤ T) (tD tR : Nat)
    (hD : tD - t0 ≤ T) (hR : tR - t0 > T) :
    (∀ d ∈ (gateRun T L none (t0 :: rest)).1, d = false)
    ∧ fixedWindowStep T L tD (gateRun T L none (t0 :: rest)).2 =
        (true, { timestamp := t0, count := L })
    ∧ fixedWindowStep T L tR (gateRun T L none (t0 :: rest)).2 =
        (false, { timestamp := tR, count := 1 }) := by
  have hfirst : fixedWindowStep T L t0 (none : Option RateWindow) =
      (false, { timestamp := t0, count := 1 }) := rfl
  have hrun : gateRun T L none (t0 :: rest) =
      (false :: List.replicate rest.length false,
       some { timestamp := t0, count := 1 + rest.length }) := by
    simp only [gateRun, hfirst]
    rw [gateRun_fill T L t0 rest 1 hin (by omega)]
  rw [hrun]
  have hcount : 1 + rest.length = L := by omega
  refine ⟨?_, ?_, ?_⟩
  · intro d hd
    simp at hd
    rcases hd with hd | hd
    · exact hd
    · exact hd.2
  · simp only [fixedWindowStep]
    rw [if_neg (show ¬ (tD - t0 > T) by omega),
      if_pos (show 1 + rest.length ≥ L by omega), hcount]
  · simp only [fixedWindowStep]
    rw [if_pos (show tR - t0 > T by omega)]

/-- Witness for C4 at T = 1000, L = 2: events at 0 and 500 are allowed, a
third at 800 is denied, and one at 1500 resets the window and is allowed. -/
theorem fixed_window_limit_and_reset_witness :
    (1 ≤ 2 ∧ ([500] : List Nat).length = 2 - 1
      ∧ (∀ t ∈ ([500] : List Nat), t - 0 ≤ 1000)
      ∧ 800 - 0 ≤ 1000 ∧ 1500 - 0 > 1000)
    ∧ ((∀ d ∈ (gateRun 1000 2 none (0 :: [500])).1, d = false)
      ∧ fixedWindowStep 1000 2 800 (gateRun 1000 2 none (0 :: [500])).2 =
          (true, { timestamp := 0, count := 2 })
      ∧ fixedWindowStep 1000 2 1500 (gateRun 1000 2 none (0 :: [500])).2 =
          (false, { timestamp := 1500, count := 1 })) :=
  ⟨⟨by decide, by decide, by decide, by decide, by decide⟩,
   fixed_window_limit_and_reset 1000 2 (by decide) 0 [500] (by decide)
     (by decide) 800 1500 (by decide) (by decide)⟩

theorem foldl_add_eq_sum (f : Packet → Nat) (l : List Packet) :
    ∀ a : Nat, l.foldl (fun acc p => acc + f p) a = a + (l.map f).sum := by
  induction l with
  | nil => intro a; simp
  | cons p ps ih =>
    intro a
    simp only [List.foldl_cons, List.map_cons, List.sum_cons]
    rw [ih (a + f p)]
    omega

theorem totalDataLen_eq_sum (l : List Packet) :
    totalDataLen l = (l.map (fun p => p.data.length)).sum := by
  unfold totalDataLen
  rw [foldl_add_eq_sum]
  omega

theorem totalSizes_eq_sum (l : List Packet) :
    totalSizes l = (l.map (fun p => p.size)).sum := by
  unfold totalSizes
  rw [foldl_add_eq_sum]
  simp

theorem totalSizes_eq_totalDataLen (l : List Packet)
    (h : ∀ p ∈ l, p.size = p.data.length) :
    totalSizes l = totalDataLen l := by
  rw [totalSizes_eq_sum, totalDataLen_eq_sum]
  have hmap : l.map (fun p => p.size) = l.map (fun p => p.data.length) := by
    induction l with
    | nil => rfl
    | cons p ps ih =>
      simp only [List.map_cons]
      rw [h p (List.mem_cons_self p ps),
        ih (fun q hq => h q (List.mem_cons_of_mem p hq))]
  rw [hmap]

theorem totalDataLen_evictOldest_le (ceiling : Nat) (l : List Packet) :
    totalDataLen (evictOldest ceiling l) ≤ ceiling := by
  induction l with
  | nil => simp [evictOldest, totalDataLen]
  | cons p ps ih =>
    simp only [evictOldest]
    split
    · exact ih
    · next h => omega

theorem mem_of_mem_evictOldest (ceiling : Nat) (l : List Packet) (p : Packet)
    (hp : p ∈ evictOldest ceiling l) : p ∈ l := by
  induction l with
  | nil => simp [evictOldest] at hp
  | cons q ps ih =>
    simp only [evictOldest] at hp
    split at hp
    · exact List.mem_cons_of_mem q (ih hp)
    · exact hp

theorem udpMessage_videoBuffer (hash : List Nat → Nat) (ceiling now : Nat)
    (sender : String) (st : UdpState) (msg : List Nat) :
    (udpMessage hash ceiling now sender st msg).1.videoBuffer =
      evictOldest ceiling (st.videoBuffer ++
        [{ id := hash msg, data := msg, timestamp := now,
           size := msg.length }]) := by
  simp only [udpMessage]
  split <;> rfl

theorem udpMessage_invariant (hash : List Nat → Nat) (ceiling now : Nat)
    (sender : String) (st : UdpState) (msg : List Nat)
    (h : ∀ p ∈ st.videoBuffer, p.size = p.data.length) :
    (∀ p ∈ (udpMessage hash ceiling now sender st msg).1.videoBuffer,
        p.size = p.data.length)
    ∧ totalSizes
        (udpMessage hash ceiling now sender st msg).1.videoBuffer ≤ ceiling := by
  have hcons : ∀ p ∈ evictOldest ceiling (st.videoBuffer ++
      [{ id := hash msg, data := msg, timestamp := now,
         size := msg.length }]), p.size = p.data.length := by
    intro p hp
    have hp2 := mem_of_mem_evictOldest ceiling _ p hp
    rcases List.mem_append.mp hp2 with h1 | h1
    · exact h p h1
    · simp only [List.mem_singleton] at h1
      subst h1
      rfl
  constructor
  · rw [udpMessage_videoBuffer]
    exact hcons
  · rw [udpMessage_videoBuffer, totalSizes_eq_totalDataLen _ hcons]
    exact totalDataLen_evictOldest_le ceiling _

theorem udpFold_invariant (hash : List Nat → Nat) (ceiling : Nat)
    (events : List (Nat × String × List Nat)) :
    ∀ st : UdpState, (∀ p ∈ st.videoBuffer, p.size = p.data.length) →
      totalSizes st.videoBuffer ≤ ceiling →
      (∀ p ∈ (events.foldl
          (fun s e => (udpMessage hash ceiling e.1 e.2.1 s e.2.2).1)
          st).videoBuffer, p.size = p.data.length)
      ∧ totalSizes (events.foldl
          (fun s e => (udpMessage hash ceiling e.1 e.2.1 s e.2.2).1)
          st).videoBuffer ≤ ceiling := by
  induction events with
  | nil => exact fun st h1 h2 => ⟨h1, h2⟩
  | cons e es ih =>
    intro st h1 h2
    simp only [List.foldl_cons]
    have hstep := udpMessage_invariant hash ceiling e.1 e.2.1 st e.2.2 h1
    exact ih _ hstep.1 hstep.2

/-- Counterexample to C1 as stated: with ceiling 5, pushing a single 6-byte
datagram into the empty buffer leaves the buffer empty — the oversized
packet is evicted by the while-loop rather than kept, so the buffer does not
shrink to that one packet. -/
theorem oversized_packet_evicted_counterexample :
    (udpMessage (fun _ => 0) 5 0 "sender" (initialUdpState 0)
      [0, 0, 0, 0, 0, 0]).1.videoBuffer = []
    ∧ ((udpMessage (fun _ => 0) 5 0 "sender" (initialUdpState 0)
        [0, 0, 0, 0, 0, 0]).1.videoBuffer).length ≠ 1 := by
  constructor
  · rfl
  · decide

/-- C1 as amended: for every sequence of pushes into the packet buffer,
after each push the sum of the sizes of the held packets is at most the
configured byte ceiling, without exception — a single packet larger than the
ceiling is not kept but evicted, leaving the buffer empty; push never raises
an error. -/
theorem buffer_bound_after_each_push (hash : List Nat → Nat)
    (ceiling t0 : Nat) (events : List (Nat × String × List Nat)) (k : Nat) :
    totalSizes (udpRun hash ceiling t0 (events.take k)).videoBuffer ≤
      ceiling := by
  unfold udpRun
  refine (udpFold_invariant hash ceiling (events.take k) (initialUdpState t0)
    ?_ ?_).2
  · intro p hp
    simp [initialUdpState] at hp
  · simp [initialUdpState, totalSizes]

theorem jsOrInt_some_zero (x : Int) : jsOrInt (some x) 0 = x := by
  simp only [jsOrInt]
  split <;> omega

theorem take_min_length {α : Type _} (l : List α) (m : Nat) :
    l.take (min m l.length) = l.take m := by
  rw [List.take_eq_take]
  omega

theorem take_length_take {α : Type _} (l : List α) (m : Nat) :
    l.take ((l.take m).length) = l.take m := by
  rw [List.length_take]
  exact take_min_length l m

theorem jsSliceIndex_nonneg (len : Nat) (i : Int) (h0 : 0 ≤ i)
    (hlt : i < (len : Int)) : jsSliceIndex len i = i.toNat := by
  unfold jsSliceIndex
  rw [if_neg (by omega)]
  omega

theorem jsSlice_spec {α : Type _} (l : List α) (s E : Int) (h0 : 0 ≤ s)
    (hlt : s < (l.length : Int)) :
    jsSlice l s E =
      (l.drop s.toNat).take (jsSliceIndex l.length E - s.toNat) := by
  unfold jsSlice
  rw [jsSliceIndex_nonneg l.length s h0 hlt, List.drop_take]

theorem jsSlice_self_take {α : Type _} (l : List α) (s E : Int) (h0 : 0 ≤ s)
    (hlt : s < (l.length : Int)) :
    (l.drop s.toNat).take (jsSlice l s E).length = jsSlice l s E := by
  rw [jsSlice_spec l s E h0 hlt]
  exact take_length_take (l.drop s.toNat) (jsSliceIndex l.length E - s.toNat)

/-- C9.  On a non-empty buffer with a non-negative start index, the
video-data reply satisfies: nextIndex is the clamped start index plus the
number of chunks returned, the chunks are exactly the buffer entries from
the clamped start index up to nextIndex - 1 (each base64-encoded), and
hasMore holds exactly when nextIndex is strictly below the buffer length. -/
theorem requestVideoData_window_exact (now rate : Nat) (buf : List Packet)
    (si : Int) (csOpt : Option Int) (hb : buf ≠ []) (hs : 0 ≤ si) :
    (requestVideoData now rate buf (some si) csOpt).nextIndex =
      min si ((buf.length : Int) - 1) +
        ((requestVideoData now rate buf (some si) csOpt).chunks.length : Int)
    ∧ (requestVideoData now rate buf (some si) csOpt).chunks =
      ((buf.drop (min si ((buf.length : Int) - 1)).toNat).take
        (requestVideoData now rate buf (some si) csOpt).chunks.length).map
          encodePacket
    ∧ ((requestVideoData now rate buf (some si) csOpt).hasMore = true ↔
        (requestVideoData now rate buf (some si) csOpt).nextIndex <
          (buf.length : Int)) := by
  have hlen : 1 ≤ buf.length := List.length_pos.mpr hb
  have hne : ¬ (buf.length = 0) := by omega
  have hs0 : 0 ≤ min si ((buf.length : Int) - 1) := by omega
  have hslt : min si ((buf.length : Int) - 1) < (buf.length : Int) := by omega
  simp only [requestVideoData, jsOrInt_some_zero, if_neg hne]
  refine ⟨?_, ?_, ?_⟩
  · simp [List.length_map]
  · simp only [List.length_map]
    rw [jsSlice_self_take buf (min si ((buf.length : Int) - 1)) _ hs0 hslt]
  · simp [List.length_map]

/-- Witness for C9 on a three-packet buffer, start index 1, chunk size 1. -/
theorem requestVideoData_window_exact_witness :
    (([{ id := 1, data := [10], timestamp := 0, size := 1 },
       { id := 2, data := [20], timestamp := 0, size := 1 },
       { id := 3, data := [30], timestamp := 0, size := 1 }] : List Packet)
        ≠ [] ∧ (0 : Int) ≤ 1)
    ∧ ((requestVideoData 0 0
        [{ id := 1, data := [10], timestamp := 0, size := 1 },
         { id := 2, data := [20], timestamp := 0, size := 1 },
         { id := 3, data := [30], timestamp := 0, size := 1 }]
        (some 1) (some 1)).nextIndex =
      min 1 ((([{ id := 1, data := [10], timestamp := 0, size := 1 },
         { id := 2, data := [20], timestamp := 0, size := 1 },
         { id := 3, data := [30], timestamp := 0, size := 1 }] :
          List Packet).length : Int) - 1) +
        ((requestVideoData 0 0
          [{ id := 1, data := [10], timestamp := 0, size := 1 },
           { id := 2, data := [20], timestamp := 0, size := 1 },
           { id := 3, data := [30], timestamp := 0, size := 1 }]
          (some 1) (some 1)).chunks.length : Int)
    ∧ (requestVideoData 0 0
        [{ id := 1, data := [10], timestamp := 0, size := 1 },
         { id := 2, data := [20], timestamp := 0, size := 1 },
         { id := 3, data := [30], timestamp := 0, size := 1 }]
        (some 1) (some 1)).chunks =
      ((([{ id := 1, data := [10], timestamp := 0, size := 1 },
          { id := 2, data := [20], timestamp := 0, size := 1 },
          { id := 3, data := [30], timestamp := 0, size := 1 }] :
           List Packet).drop
          (min 1 ((([{ id := 1, data := [10], timestamp := 0, size := 1 },
            { id := 2, data := [20], timestamp := 0, size := 1 },
            { id := 3, data := [30], timestamp := 0, size := 1 }] :
             List Packet).length : Int) - 1)).toNat).take
        (requestVideoData 0 0
          [{ id := 1, data := [10], timestamp := 0, size := 1 },
           { id := 2, data := [20], timestamp := 0, size := 1 },
           { id := 3, data := [30], timestamp := 0, size := 1 }]
          (some 1) (some 1)).chunks.length).map encodePacket
    ∧ ((requestVideoData 0 0
        [{ id := 1, data := [10], timestamp := 0, size := 1 },
         { id := 2, data := [20], timestamp := 0, size := 1 },
         { id := 3, data := [30], timestamp := 0, size := 1 }]
        (some 1) (some 1)).hasMore = true ↔
      (requestVideoData 0 0
        [{ id := 1, data := [10], timestamp := 0, size := 1 },
         { id := 2, data := [20], timestamp := 0, size := 1 },
         { id := 3, data := [30], timestamp := 0, size := 1 }]
        (some 1) (some 1)).nextIndex <
        (([{ id := 1, data := [10], timestamp := 0, size := 1 },
           { id := 2, data := [20], timestamp := 0, size := 1 },
           { id := 3, data := [30], timestamp := 0, size := 1 }] :
            List Packet).length : Int))) :=
  ⟨⟨by decide, by decide⟩,
   requestVideoData_window_exact 0 0
     [{ id := 1, data := [10], timestamp := 0, size := 1 },
      { id := 2, data := [20], timestamp := 0, size := 1 },
      { id := 3, data := [30], timestamp := 0, size := 1 }]
     1 (some 1) (by decide) (by decide)⟩

/-- Counterexample to C3 as stated, in three parts.  First, a negative start
index is not clamped: on a two-packet buffer a request with start index -1
returns one chunk, yet not the one-chunk window that starts at
clamp(-1, 0, length-1) = 0, because the code only bounds the start index
from above and the JavaScript slice counts -1 from the end of the buffer.
Second, maxCount = 0 does not bound the window by min(0, 20) = 0: the falsy
default (chunkSize or-else 10) turns the requested 0 into 10, so the same
buffer yields 2 chunks.  Third, a negative maxCount is not capped at all: on
a 25-packet buffer a request with maxCount = -3 returns 22 chunks, above
even the server-imposed ceiling of 20, because the slice end is also counted
from the end of the buffer. -/
theorem requestVideoData_bounds_counterexample :
    ((requestVideoData 0 0
      [{ id := 1, data := [10], timestamp := 0, size := 1 },
       { id := 2, data := [20], timestamp := 0, size := 1 }]
      (some (-1)) none).chunks.length = 1
    ∧ (requestVideoData 0 0
        [{ id := 1, data := [10], timestamp := 0, size := 1 },
         { id := 2, data := [20], timestamp := 0, size := 1 }]
        (some (-1)) none).chunks ≠
      ((([{ id := 1, data := [10], timestamp := 0, size := 1 },
          { id := 2, data := [20], timestamp := 0, size := 1 }] :
           List Packet).drop 0).take 1).map encodePacket)
    ∧ ¬ ((requestVideoData 0 0
        [{ id := 1, data := [10], timestamp := 0, size := 1 },
         { id := 2, data := [20], timestamp := 0, size := 1 }]
        (some 0) (some 0)).chunks.length ≤ (min (0 : Int) 20).toNat)
    ∧ ¬ ((requestVideoData 0 0
        (List.replicate 25 { id := 0, data := [], timestamp := 0, size := 0 })
        (some 0) (some (-3))).chunks.length ≤ 20) := by
  decide

theorem jsSliceIndex_of_le (len : Nat) (i : Int) (h0 : 0 ≤ i)
    (hle : i ≤ (len : Int)) : jsSliceIndex len i = i.toNat := by
  unfold jsSliceIndex
  rw [if_neg (by omega)]
  omega

/-- C3 as amended: on a non-empty buffer with a non-negative start index and
a positive requested chunk count, the reply is the contiguous
order-preserving window of the buffer starting at min(startIndex, length-1)
with at most min(maxCount, 20) chunks — a past-the-end start index is
silently clamped to length-1, never rejected.  The min(maxCount, 20) bound
holds only for positive maxCount: a requested maxCount of 0 is a JavaScript
falsy value and falls back to the default of 10 (the reply is identical to
the one for maxCount = 10, proved below), and a negative maxCount or a
negative start index is handed to the slice, which counts it from the end of
the buffer instead of clamping it (the counterexample exhibits both).  On an
empty buffer the reply is empty with the no-more-data flag. -/
theorem requestVideoData_clamped_window (now rate : Nat) (buf : List Packet)
    (si c : Int) (hb : buf ≠ []) (hsi : 0 ≤ si) (hc : 1 ≤ c) :
    (requestVideoData now rate buf (some si) (some c)).chunks =
      ((buf.drop (min si ((buf.length : Int) - 1)).toNat).take
        (min c 20).toNat).map encodePacket
    ∧ (requestVideoData now rate buf (some si) (some c)).chunks.length ≤
        (min c 20).toNat
    ∧ requestVideoData now rate buf (some si) (some 0) =
        requestVideoData now rate buf (some si) (some 10)
    ∧ (requestVideoData now rate [] (some si) (some c)).chunks = []
    ∧ (requestVideoData now rate [] (some si) (some c)).hasMore = false := by
  have hlen : 1 ≤ buf.length := List.length_pos.mpr hb
  have hne : ¬ (buf.length = 0) := by omega
  have hs0 : 0 ≤ min si ((buf.length : Int) - 1) := by omega
  have hslt : min si ((buf.length : Int) - 1) < (buf.length : Int) := by omega
  have hjs : jsOrInt (some c) 10 = c := by
    simp only [jsOrInt]
    rw [if_neg (by omega)]
  have hchunks : (requestVideoData now rate buf (some si) (some c)).chunks =
      ((buf.drop (min si ((buf.length : Int) - 1)).toNat).take
        (min c 20).toNat).map encodePacket := by
    simp only [requestVideoData, jsOrInt_some_zero, hjs, if_neg hne]
    rw [jsSlice_spec buf _ _ hs0 hslt,
      jsSliceIndex_of_le buf.length _ (by omega) (by omega)]
    congr 1
    have h1 : (min (min si ((buf.length : Int) - 1) + min c 20)
        (buf.length : Int)).toNat -
          (min si ((buf.length : Int) - 1)).toNat =
        min ((min c 20).toNat)
          (buf.length - (min si ((buf.length : Int) - 1)).toNat) := by
      omega
    rw [h1, ← List.length_drop, take_min_length]
  refine ⟨hchunks, ?_, ?_, rfl, rfl⟩
  · rw [hchunks]
    simp only [List.length_map, List.length_take]
    omega
  · have h0 : jsOrInt (some (0 : Int)) 10 = jsOrInt (some (10 : Int)) 10 := by
      simp [jsOrInt]
    simp only [requestVideoData, h0]

/-- Witness for the amended C3 on a three-packet buffer with the
past-the-end start index 5 (silently clamped to 2) and chunk count 2. -/
theorem requestVideoData_clamped_window_witness :
    (([{ id := 1, data := [10], timestamp := 0, size := 1 },
       { id := 2, data := [20], timestamp := 0, size := 1 },
       { id := 3, data := [30], timestamp := 0, size := 1 }] : List Packet)
        ≠ [] ∧ (0 : Int) ≤ 5 ∧ (1 : Int) ≤ 2)
    ∧ ((requestVideoData 0 0
        [{ id := 1, data := [10], timestamp := 0, size := 1 },
         { id := 2, data := [20], timestamp := 0, size := 1 },
         { id := 3, data := [30], timestamp := 0, size := 1 }]
        (some 5) (some 2)).chunks =
      ((([{ id := 1, data := [10], timestamp := 0, size := 1 },
          { id := 2, data := [20], timestamp := 0, size := 1 },
          { id := 3, data := [30], timestamp := 0, size := 1 }] :
           List Packet).drop
          (min 5 ((([{ id := 1, data := [10], timestamp := 0, size := 1 },
            { id := 2, data := [20], timestamp := 0, size := 1 },
            { id := 3, data := [30], timestamp := 0, size := 1 }] :
             List Packet).length : Int) - 1)).toNat).take
        ((min (2 : Int) 20).toNat)).map encodePacket
    ∧ (requestVideoData 0 0
        [{ id := 1, data := [10], timestamp := 0, size := 1 },
         { id := 2, data := [20], timestamp := 0, size := 1 },
         { id := 3, data := [30], timestamp := 0, size := 1 }]
        (some 5) (some 2)).chunks.length ≤ (min (2 : Int) 20).toNat
    ∧ requestVideoData 0 0
        [{ id := 1, data := [10], timestamp := 0, size := 1 },
         { id := 2, data := [20], timestamp := 0, size := 1 },
         { id := 3, data := [30], timestamp := 0, size := 1 }]
        (some 5) (some 0) =
      requestVideoData 0 0
        [{ id := 1, data := [10], timestamp := 0, size := 1 },
         { id := 2, data := [20], timestamp := 0, size := 1 },
         { id := 3, data := [30], timestamp := 0, size := 1 }]
        (some 5) (some 10)
    ∧ (requestVideoData 0 0 [] (some 5) (some 2)).chunks = []
    ∧ (requestVideoData 0 0 [] (some 5) (some 2)).hasMore = false) :=
  ⟨⟨by decide, by decide, by decide⟩,
   requestVideoData_clamped_window 0 0
     [{ id := 1, data := [10], timestamp := 0, size := 1 },
      { id := 2, data := [20], timestamp := 0, size := 1 },
      { id := 3, data := [30], timestamp := 0, size := 1 }]
     5 2 (by decide) (by decide) (by decide)⟩

end UdpWebrtcPlayer
